import Mathlib

/-
Verification of the order-lifecycle / wallet-ledger slice of the
bright-bite backend (FastAPI route handlers in app/api/endpoints/).
Handlers are embedded as pure Lean functions over explicit state:
the remote table store is modelled as record fields and lists of rows,
each awaited round-trip as a pure read or functional update, and every
HTTPException as an error value of an error-category type.  Monetary
amounts (Python floats) are modelled as rationals.
-/

/-- Order statuses stored in the orders table (ORDER_STATUS in student.py,
and the string literals used across vendor.py and staff.py). -/
inductive DbStatus where
  | pendingConfirmation
  | confirmed
  | paymentProcessing
  | preparing
  | readyForPickup
  | onTheWay
  | arrivingSoon
  | delivered
  | completed
  | ratingPending
  | rejected
deriving DecidableEq, Repr

/-- Error categories of the HTTPExceptions raised by the handlers
(400 validation, 401 unauthorized, 403 forbidden, 404 not found,
400 insufficient-funds with its distinguishable message, 500 server). -/
inductive Err where
  | validation
  | unauthorized
  | forbidden
  | notFound
  | insufficientFunds
  | serverError
deriving DecidableEq, Repr

/-- refund_type values written by request_refund in student.py. -/
inductive RefundKind where
  | fullRefund
  | partialRefund
  | voucherRefund
deriving DecidableEq, Repr

/-- Transaction status strings stored by the wallet handlers. -/
inductive TxStatus where
  | pending
  | completed
  | failed
deriving DecidableEq, Repr

/-- Transaction type strings stored by the wallet handlers. -/
inductive TxType where
  | credit
  | debit
deriving DecidableEq, Repr

deriving instance DecidableEq for Except

-- ===== String primitives =====

/-
Python's str.lower / str.upper / str.strip, modelled explicitly on the
ASCII range (every string these handlers compare is ASCII).  The
library versions are avoided because kernel reduction of concrete
instances is part of the development.
-/

/-- ASCII lower-casing of one character. -/
def lowerChar (c : Char) : Char :=
  if 65 ≤ c.toNat ∧ c.toNat ≤ 90 then Char.ofNat (c.toNat + 32) else c

/-- ASCII upper-casing of one character. -/
def upperChar (c : Char) : Char :=
  if 97 ≤ c.toNat ∧ c.toNat ≤ 122 then Char.ofNat (c.toNat - 32) else c

/-- Python str.lower on ASCII strings. -/
def pyLower (s : String) : String := String.mk (s.data.map lowerChar)

/-- Python str.upper on ASCII strings. -/
def pyUpper (s : String) : String := String.mk (s.data.map upperChar)

/-- Whitespace recognised by Python str.strip. -/
def isSpaceChar (c : Char) : Bool :=
  c = ' ' ∨ c = '\t' ∨ c = '\n' ∨ c = '\r'

/-- Python str.strip. -/
def pyStrip (s : String) : String :=
  String.mk (((s.data.dropWhile isSpaceChar).reverse.dropWhile isSpaceChar).reverse)

/-- Drop the first n characters of a string. -/
def pyDrop (s : String) (n : Nat) : String := String.mk (s.data.drop n)

-- ===== Order lifecycle handlers =====

/-- UI_TO_DB_STATUS table of vendor.py (lines 54-60). -/
def uiToDbStatus (s : String) : Option DbStatus :=
  if s = "pending" then some DbStatus.pendingConfirmation
  else if s = "preparing" then some DbStatus.preparing
  else if s = "ready" then some DbStatus.readyForPickup
  else if s = "completed" then some DbStatus.completed
  else if s = "cancelled" then some DbStatus.rejected
  else none

/-- An order row as seen by the student cancel endpoint: owner and status. -/
structure StudentOrder where
  userId : String
  status : DbStatus
deriving DecidableEq, Repr

/-- cancel_order in student.py (lines 392-412): updates the order row
matching (id, user_id) to REJECTED unconditionally; 404 when no row
matches.  Returns the response and the resulting stored order. -/
def cancelOrder (uid : String) (o : StudentOrder) :
    Except Err Unit × StudentOrder :=
  if o.userId = uid then
    (Except.ok (), { o with status := DbStatus.rejected })
  else
    (Except.error Err.notFound, o)

/-- An order row as seen by the vendor status-update endpoint. -/
structure VendorOrder where
  status : DbStatus
  assignedStaffId : Option String
deriving DecidableEq, Repr

/-- update_order_status in vendor.py (lines 445-502): validates the UI
status string, no-ops when the target equals the current status, forbids
logistics-completion targets on staff-assigned orders, otherwise writes
the target status unconditionally.  Returns the response (ok carries the
message kind) and the resulting stored status. -/
def vendorUpdateOrderStatus (o : VendorOrder) (reqStatus : String) :
    Except Err String × DbStatus :=
  let incoming := pyLower (pyStrip reqStatus)
  match uiToDbStatus incoming with
  | none => (Except.error Err.validation, o.status)
  | some targetDb =>
    if o.status = targetDb then
      (Except.ok "unchanged", o.status)
    else if o.assignedStaffId.isSome ∧
        (targetDb = DbStatus.onTheWay ∨ targetDb = DbStatus.delivered ∨
          targetDb = DbStatus.completed) then
      (Except.error Err.forbidden, o.status)
    else
      (Except.ok "updated", targetDb)

/-- Mapping of the staff request vocabulary to DB statuses
(update_delivery_status in staff.py, lines 436-444). -/
def staffStatusTarget (s : String) : Option DbStatus :=
  let f := pyStrip (pyLower s)
  if f = "picked-up" then some DbStatus.onTheWay
  else if f = "delivered" then some DbStatus.delivered
  else none

/-- VALID_STATUS_TRANSITIONS in staff.py (lines 30-36); statuses absent
from the table map to the empty list (dict.get default). -/
def validStatusTransitions : DbStatus → List DbStatus
  | DbStatus.pendingConfirmation => [DbStatus.onTheWay]
  | DbStatus.confirmed => [DbStatus.onTheWay]
  | DbStatus.preparing => [DbStatus.onTheWay]
  | DbStatus.readyForPickup => [DbStatus.onTheWay]
  | DbStatus.onTheWay => [DbStatus.delivered]
  | _ => []

/-- The slice of state touched by update_delivery_status: the order row
plus the student profile points of the ordering student. -/
structure StaffOrderState where
  status : DbStatus
  restaurantId : String
  userId : String
  assignedStaffId : Option String
  total : ℚ
  studentPoints : ℤ
deriving DecidableEq, Repr

/-- update_delivery_status in staff.py (lines 384-543): checks the order
belongs to the staff member's vendor, maps the request string, validates
the transition against VALID_STATUS_TRANSITIONS (400 otherwise), writes
the new status (claiming the order when picking up unassigned), and on
DELIVERED awards int(total // 100) points when positive. -/
def updateDeliveryStatus (staffVendorId staffId : String)
    (o : StaffOrderState) (req : String) :
    Except Err Unit × StaffOrderState :=
  if o.restaurantId ≠ staffVendorId then (Except.error Err.forbidden, o)
  else
    match staffStatusTarget req with
    | none => (Except.error Err.validation, o)
    | some newDb =>
      if newDb ∈ validStatusTransitions o.status then
        let o1 := { o with
          status := newDb,
          assignedStaffId :=
            if newDb = DbStatus.onTheWay ∧ o.assignedStaffId = none then
              some staffId
            else o.assignedStaffId }
        let o2 :=
          if newDb = DbStatus.delivered then
            let rp : ℤ := if 0 < o.total then Int.floor (o.total / 100) else 0
            if 0 < rp then { o1 with studentPoints := o1.studentPoints + rp }
            else o1
          else o1
        (Except.ok (), o2)
      else (Except.error Err.validation, o)

-- ===== Wallet ledger handlers (wallet.py) =====

/-- A row of the transactions table, with the fields the modelled
handlers read or write. -/
structure Tx where
  id : String
  walletId : String
  txType : TxType
  amount : ℚ
  paymentMethod : String
  status : TxStatus
  userId : String
  reference : String
  orderId : Option String
deriving DecidableEq, Repr

/-- The wallet-side state a request touches: the caller's wallet row
(wallets table) and the transactions table; nextId supplies the fresh
uuid4 identifiers the handlers generate. -/
structure WalletState where
  walletId : String
  userId : String
  balance : ℚ
  txs : List Tx
  nextId : Nat
deriving DecidableEq, Repr

/-- Fresh transaction id supply standing for str(uuid.uuid4()). -/
def freshId (n : Nat) : String := "tx-" ++ Nat.repr n

/-- Fields of the transaction object included in the top-up / debit JSON
responses. -/
structure TxResp where
  txId : String
  txAmount : ℚ
  txStatus : TxStatus
  balance : ℚ
deriving DecidableEq, Repr

/-- top_up in wallet.py (lines 196-319): validates amount in [50, 10000]
and payment method in (gcash, maya); when an idempotency key is supplied
and a transaction with that id already exists for the wallet, returns
that transaction and the current balance without inserting; otherwise
inserts a new pending credit transaction whose id is the idempotency key
when given, else a fresh uuid.  The balance is never changed here. -/
def topUp (amount : ℚ) (method : String) (idemKey : Option String)
    (w : WalletState) : Except Err TxResp × WalletState :=
  if amount < 50 ∨ 10000 < amount then (Except.error Err.validation, w)
  else if pyLower method ≠ "gcash" ∧ pyLower method ≠ "maya" then
    (Except.error Err.validation, w)
  else
    match idemKey.bind
        (fun k => w.txs.find? (fun t => t.id == k && t.walletId == w.walletId)) with
    | some t =>
      (Except.ok ⟨t.id, t.amount, t.status, w.balance⟩, w)
    | none =>
      let txId := match idemKey with
        | some k => k
        | none => freshId w.nextId
      let t : Tx := ⟨txId, w.walletId, TxType.credit, amount,
        pyLower method, TxStatus.pending, w.userId,
        "REF-" ++ freshId w.nextId, none⟩
      (Except.ok ⟨txId, amount, TxStatus.pending, w.balance⟩,
        { w with txs := w.txs ++ [t], nextId := w.nextId + 1 })

/-- debit_wallet in wallet.py (lines 693-795): validates amount positive
and at most the 50000 per-transaction limit, fails on insufficient
balance, otherwise inserts a completed debit transaction and decrements
the balance.  The handler reads no idempotency key: idemKey is accepted
(a request may carry one) and ignored, exactly as in the source. -/
def debitWallet (amount : ℚ) (idemKey : Option String)
    (orderId : Option String) (w : WalletState) :
    Except Err TxResp × WalletState :=
  if amount ≤ 0 then (Except.error Err.validation, w)
  else if 50000 < amount then (Except.error Err.validation, w)
  else if w.balance < amount then (Except.error Err.insufficientFunds, w)
  else
    let txId := freshId w.nextId
    let t : Tx := ⟨txId, w.walletId, TxType.debit, amount, "wallet",
      TxStatus.completed, w.userId, "DEBIT-" ++ freshId w.nextId, orderId⟩
    let nb := w.balance - amount
    (Except.ok ⟨txId, amount, TxStatus.completed, nb⟩,
      { w with balance := nb, txs := w.txs ++ [t], nextId := w.nextId + 1 })

/-- _complete_pending_credit in wallet.py (lines 107-150): a conditional
update flips the transaction from pending to completed (filtering on id,
wallet id and status = pending); when no row was flipped the current
wallet is returned without crediting; when the flip succeeded, a
non-positive amount raises 400 (after the flip, as in the source),
otherwise the wallet balance is credited by the amount. -/
def completePendingCredit (w : WalletState) (txId : String) :
    Except Err ℚ × WalletState :=
  match w.txs.find?
      (fun t => t.id == txId && t.walletId == w.walletId && t.status == TxStatus.pending) with
  | none => (Except.ok w.balance, w)
  | some t =>
    let txs1 := w.txs.map (fun u =>
      if u.id = txId ∧ u.walletId = w.walletId ∧ u.status = TxStatus.pending then
        { u with status := TxStatus.completed }
      else u)
    if t.amount ≤ 0 then
      (Except.error Err.validation, { w with txs := txs1 })
    else
      (Except.ok (w.balance + t.amount),
        { w with balance := w.balance + t.amount, txs := txs1 })

/-- confirm_top_up in wallet.py (lines 322-398): looks the transaction up
by id within the caller's wallet (404 when absent, 403 on a foreign
user_id, 400 unless a credit), returns the current wallet untouched when
the transaction is already completed, rejects non-pending states and
non-positive amounts, and otherwise completes the pending credit. -/
def confirmTopUp (uid : String) (txId : String) (w : WalletState) :
    Except Err (TxStatus × ℚ) × WalletState :=
  match w.txs.find? (fun t => t.id == txId && t.walletId == w.walletId) with
  | none => (Except.error Err.notFound, w)
  | some t =>
    if t.userId ≠ "" ∧ t.userId ≠ uid then (Except.error Err.forbidden, w)
    else if t.txType ≠ TxType.credit then (Except.error Err.validation, w)
    else if t.status = TxStatus.completed then
      (Except.ok (TxStatus.completed, w.balance), w)
    else if t.status ≠ TxStatus.pending then (Except.error Err.validation, w)
    else if t.amount ≤ 0 then (Except.error Err.validation, w)
    else
      match completePendingCredit w txId with
      | (Except.ok b, w1) => (Except.ok (TxStatus.completed, b), w1)
      | (Except.error e, w1) => (Except.error e, w1)

-- ===== Webhooks and signature verification (wallet.py) =====

/-- _verify_signature in wallet.py (lines 91-104): requires a non-empty
secret and a provided header; strips an optional case-insensitive
sha256= prefix from the trimmed value and compares it with the HMAC
SHA-256 hex digest of the raw body.  The digest primitive _hmac_hex is
passed in as a function argument. -/
def verifySignature (hmacHex : String → List Nat → String)
    (secret : String) (rawBody : List Nat) (provided : Option String) : Bool :=
  if secret = "" then false
  else
    match provided with
    | none => false
    | some p =>
      let p1 := pyStrip p
      let p2 := if (pyLower p1).data.take 7 = "sha256=".data then pyDrop p1 7 else p1
      hmacHex secret rawBody = p2

/-- The payload fields the webhook handlers read, after JSON decoding
and the per-provider key coalescing (reference / bizNo /
requestReferenceNumber / id collapse into one reference field). -/
structure WebhookPayload where
  reference : Option String
  status : String
  amount : Option ℚ
deriving DecidableEq, Repr

/-- Body shared verbatim by maya_webhook (lines 450-520) and
gcash_webhook (lines 523-591) of wallet.py: verify the signature (401
otherwise, before touching anything), require a reference (400), look
the transaction up by its stored reference (404), then on a paid
provider status complete the pending credit, on a failed status flip a
still-pending transaction to failed, and otherwise accept with no
effect.  The amount-mismatch check of the source raises inside a
try/except-pass block that swallows the HTTPException, so it has no
observable effect and is omitted. -/
def paymentWebhook (hmacHex : String → List Nat → String)
    (secret : String) (rawBody : List Nat) (sig : Option String)
    (payload : WebhookPayload) (w : WalletState) :
    Except Err String × WalletState :=
  if verifySignature hmacHex secret rawBody sig = false then
    (Except.error Err.unauthorized, w)
  else
    match payload.reference with
    | none => (Except.error Err.validation, w)
    | some ref =>
      match w.txs.find? (fun t => t.reference == ref) with
      | none => (Except.error Err.notFound, w)
      | some t =>
        let s := pyLower payload.status
        if s ∈ ["paid", "success", "succeeded", "completed"] then
          match completePendingCredit w t.id with
          | (Except.ok _, w1) => (Except.ok "completed", w1)
          | (Except.error e, w1) => (Except.error e, w1)
        else if s ∈ ["failed", "cancelled", "canceled", "expired"] then
          (Except.ok "failed",
            { w with txs := w.txs.map (fun u =>
                if u.id = t.id ∧ u.status = TxStatus.pending then
                  { u with status := TxStatus.failed }
                else u) })
        else
          (Except.ok "unknown", w)

/-- maya_webhook in wallet.py (lines 450-520). -/
def mayaWebhook := paymentWebhook

/-- gcash_webhook in wallet.py (lines 523-591). -/
def gcashWebhook := paymentWebhook

-- ===== Refund eligibility engine (request_refund in student.py) =====

/-- round(x, 2) of Python: round to two decimal places, ties to even. -/
def roundHalfEven (q : ℚ) : ℤ :=
  let f := Int.floor q
  let r := q - f
  if r < 1 / 2 then f
  else if 1 / 2 < r then f + 1
  else if f % 2 = 0 then f else f + 1

/-- round(x, 2) on a rational amount. -/
def round2 (q : ℚ) : ℚ := (roundHalfEven (q * 100) : ℚ) / 100

/-- An element of an order's denormalized items array, as read by
request_refund: name is the coalesced item_name / name field (empty
string when both are missing), with price and quantity defaults. -/
structure OrderItem where
  name : String
  price : ℚ
  quantity : ℤ
deriving DecidableEq, Repr

/-- The (approved_amount, refund_type, auto_approve) triple computed by
request_refund. -/
structure RefundOutcome where
  approvedAmount : ℚ
  refundKind : RefundKind
  autoApprove : Bool
deriving DecidableEq, Repr

/-- is_delivered in request_refund (student.py lines 509-510). -/
def isDeliveredStatus (s : DbStatus) : Bool :=
  s == DbStatus.delivered || s == DbStatus.completed || s == DbStatus.ratingPending

/-- The item sum of the WRONG_ITEMS / MISSING_ITEMS branch (student.py
lines 537-544): items whose trimmed lowercased name is non-empty and
either the claimed-name set is empty or contains it contribute
price * quantity. -/
def claimedItemsSum (names : List String) (items : List OrderItem) : ℚ :=
  match items with
  | [] => 0
  | it :: rest =>
    let nm := pyLower (pyStrip it.name)
    (if nm ≠ "" ∧ (names = [] ∨ nm ∈ names) then it.price * it.quantity else 0)
      + claimedItemsSum names rest

/-- The refund-eligibility computation of request_refund in student.py
(lines 500-568): a deterministic function of the claimed issue, claimed
delay, evidence, claimed item names, the order's items, total and
status, and the claimed initiator.  Defaults are amount 0, type
partial, not auto-approved. -/
def computeRefund (issueRaw : String) (delayMins : ℤ)
    (evidence : List String) (itemsClaim : List String)
    (orderItems : List OrderItem) (baseTotal : ℚ)
    (dbStatus : DbStatus) (initiatedBy : String) : RefundOutcome :=
  let issue := pyUpper issueRaw
  if issue ∈ ["NOT_DELIVERED", "ORDER_NOT_DELIVERED", "NO_DELIVERY"] then
    if isDeliveredStatus dbStatus = false then
      ⟨baseTotal, RefundKind.fullRefund, true⟩
    else ⟨0, RefundKind.partialRefund, false⟩
  else if issue ∈ ["LATE", "DELIVERED_LATE", "DELAY"] then
    if 60 ≤ delayMins then ⟨baseTotal, RefundKind.fullRefund, true⟩
    else if 30 ≤ delayMins then
      ⟨round2 (baseTotal * (3 / 10)), RefundKind.partialRefund, true⟩
    else if 15 ≤ delayMins then ⟨0, RefundKind.voucherRefund, false⟩
    else ⟨0, RefundKind.partialRefund, false⟩
  else if issue ∈ ["WRONG_ITEMS", "WRONG_ITEM", "MISSING_ITEMS", "MISSING_ITEM"] then
    let names := itemsClaim.map (fun x => pyLower (pyStrip x))
    let amt := min (claimedItemsSum names orderItems) baseTotal
    if 0 < amt then ⟨round2 amt, RefundKind.partialRefund, true⟩
    else ⟨0, RefundKind.partialRefund, false⟩
  else if issue ∈ ["QUALITY", "FOOD_QUALITY", "NOT_EDIBLE"] then
    if evidence ≠ [] then
      ⟨round2 (baseTotal * (5 / 10)), RefundKind.partialRefund, true⟩
    else ⟨0, RefundKind.partialRefund, false⟩
  else if issue ∈ ["CANCELLED", "CANCELED"] then
    let initiator := pyLower initiatedBy
    if initiator ∈ ["restaurant", "vendor", "rider", "delivery"] then
      ⟨baseTotal, RefundKind.fullRefund, true⟩
    else if initiator ∈ ["customer", "user"] then
      if dbStatus = DbStatus.pendingConfirmation ∨ dbStatus = DbStatus.confirmed then
        ⟨baseTotal, RefundKind.fullRefund, true⟩
      else ⟨0, RefundKind.partialRefund, false⟩
    else ⟨0, RefundKind.partialRefund, false⟩
  else ⟨0, RefundKind.partialRefund, false⟩

/-- An order row as read by request_refund. -/
structure OrderRec where
  id : String
  userId : String
  restaurantId : String
  items : List OrderItem
  total : ℚ
  status : DbStatus
  paymentMethod : String
deriving DecidableEq, Repr

/-- A row of the refunds table as written by request_refund (the
generated uuid and timestamps are omitted). -/
structure RefundRow where
  orderId : String
  reason : String
  amount : ℚ
  refundKind : RefundKind
  rstatus : String
deriving DecidableEq, Repr

/-- State touched by request_refund: the requesting student's wallet
balance, the transactions table, the refunds table and the fresh-id
supply. -/
structure RefundReqState where
  walletBalance : ℚ
  txs : List Tx
  refunds : List RefundRow
  nextId : Nat
deriving DecidableEq, Repr

/-- request_refund in student.py (lines 481-642): 404 unless the order
exists for the requesting student, 400 unless the order was paid via
the wallet; computes the refund outcome, credits the wallet with a
completed refund transaction when auto-approved with a positive amount
(marking the refund APPROVED), and always persists a refund row.
Returns (refund status, approved amount, settlement method). -/
def requestRefund (uid : String) (o : OrderRec) (walletId : String)
    (issueRaw : String) (delayMins : ℤ) (evidence : List String)
    (itemsClaim : List String) (initiatedBy : String)
    (st : RefundReqState) :
    Except Err (String × ℚ × Option String) × RefundReqState :=
  if o.userId ≠ uid then (Except.error Err.notFound, st)
  else if pyLower o.paymentMethod ≠ "wallet" then (Except.error Err.validation, st)
  else
    let out := computeRefund issueRaw delayMins evidence itemsClaim
      o.items o.total o.status initiatedBy
    let credited := out.autoApprove ∧ 0 < out.approvedAmount
    let st1 :=
      if out.autoApprove ∧ 0 < out.approvedAmount then
        let t : Tx := ⟨freshId st.nextId, walletId, TxType.credit,
          out.approvedAmount, "refund", TxStatus.completed, uid,
          "REFUND-" ++ freshId st.nextId, some o.id⟩
        { st with walletBalance := st.walletBalance + out.approvedAmount,
                  txs := st.txs ++ [t], nextId := st.nextId + 1 }
      else st
    let rstatus := if credited then "APPROVED" else "PENDING"
    let row : RefundRow := ⟨o.id, pyUpper issueRaw, out.approvedAmount,
      out.refundKind, rstatus⟩
    let st2 := { st1 with refunds := st1.refunds ++ [row] }
    (Except.ok (rstatus, out.approvedAmount,
      if credited then some "wallet" else none), st2)

-- ===== Helper lemmas =====

/-- Rounding to two decimals is the identity on amounts that are an
exact number of hundredths. -/
theorem round2_eq_of_cent (q : ℚ) (h : ∃ n : ℤ, q * 100 = (n : ℚ)) :
    round2 q = q := by
  obtain ⟨n, hn⟩ := h
  have hr : roundHalfEven ((n : ℤ) : ℚ) = n := by
    unfold roundHalfEven
    norm_num [Int.floor_intCast]
  unfold round2
  rw [hn, hr]
  have hq : ((n : ℤ) : ℚ) = q * 100 := hn.symm
  rw [hq]
  ring

/-- With an empty claimed-name list, the item sum of the WRONG_ITEMS
branch counts every item whose coalesced name is non-empty. -/
theorem claimedItemsSum_eq_sum (items : List OrderItem)
    (h : ∀ it ∈ items, pyLower (pyStrip it.name) ≠ "") :
    claimedItemsSum [] items =
      (items.map (fun it => it.price * (it.quantity : ℚ))).sum := by
  induction items with
  | nil => simp [claimedItemsSum]
  | cons hd tl ih =>
    have hhd : pyLower (pyStrip hd.name) ≠ "" := h hd (by simp)
    have htl : ∀ it ∈ tl, pyLower (pyStrip it.name) ≠ "" := by
      intro it hit
      exact h it (by simp [hit])
    simp only [claimedItemsSum, List.map_cons, List.sum_cons]
    rw [if_pos ⟨hhd, by simp⟩, ih htl]

-- ===== Claims =====

/-- Claim C1 counterexample: the student cancel endpoint succeeds on an
order whose stored status is DELIVERED, setting it to REJECTED, whereas
the claimed authorized-transition table only allows a student to move
PENDING_CONFIRMATION to REJECTED and requires every other request to
fail FORBIDDEN leaving the status unchanged. -/
theorem c1_counterexample :
    cancelOrder "u1" ⟨"u1", DbStatus.delivered⟩ =
      (Except.ok (), ⟨"u1", DbStatus.rejected⟩) ∧
    (cancelOrder "u1" ⟨"u1", DbStatus.delivered⟩).1 ≠
      Except.error Err.forbidden := by
  refine ⟨rfl, ?_⟩
  decide

/-- Claim C1 (amended): the per-role behaviour the code actually
enforces.  The student cancel endpoint sets REJECTED on any owned order
regardless of its current status (404 on a non-owned order).  The staff
endpoint permits exactly the transitions of VALID_STATUS_TRANSITIONS
(any of PENDING_CONFIRMATION, CONFIRMED, PREPARING, READY_FOR_PICKUP to
ON_THE_WAY, and ON_THE_WAY to DELIVERED) and fails other mapped targets
with a 400 validation error, not FORBIDDEN, leaving the row unchanged.
The vendor endpoint writes any UI-expressible target unconditionally
provided the target differs from the current status and is not a
logistics-completion status on a staff-assigned order. -/
theorem c1_transition_authority :
    (∀ (uid : String) (o : StudentOrder), o.userId = uid →
      cancelOrder uid o = (Except.ok (), { o with status := DbStatus.rejected })) ∧
    (∀ (uid : String) (o : StudentOrder), o.userId ≠ uid →
      cancelOrder uid o = (Except.error Err.notFound, o)) ∧
    (∀ (vid sid : String) (o : StaffOrderState) (req : String) (t : DbStatus),
      o.restaurantId = vid → staffStatusTarget req = some t →
      t ∉ validStatusTransitions o.status →
      updateDeliveryStatus vid sid o req = (Except.error Err.validation, o)) ∧
    (∀ (vid sid : String) (o : StaffOrderState) (req : String) (t : DbStatus),
      o.restaurantId = vid → staffStatusTarget req = some t →
      t ∈ validStatusTransitions o.status →
      (updateDeliveryStatus vid sid o req).1 = Except.ok () ∧
      (updateDeliveryStatus vid sid o req).2.status = t) ∧
    (∀ (o : VendorOrder) (req : String) (t : DbStatus),
      uiToDbStatus (pyLower (pyStrip req)) = some t → o.status ≠ t →
      ¬(o.assignedStaffId.isSome ∧ (t = DbStatus.onTheWay ∨
        t = DbStatus.delivered ∨ t = DbStatus.completed)) →
      vendorUpdateOrderStatus o req = (Except.ok "updated", t)) := by
  refine ⟨?_, ?_, ?_, ?_, ?_⟩
  · intro uid o h
    simp [cancelOrder, h]
  · intro uid o h
    simp [cancelOrder, h]
  · intro vid sid o req t hv h1 h2
    simp [updateDeliveryStatus, hv, h1, h2]
  · intro vid sid o req t hv h1 h2
    by_cases hd : t = DbStatus.delivered
    · subst hd
      simp [updateDeliveryStatus, hv, h1, h2]
      split <;> (try split) <;> rfl
    · simp [updateDeliveryStatus, hv, h1, h2, hd]
  · intro o req t h1 h2 h3
    simp [vendorUpdateOrderStatus, h1, h2, h3]

/-- Concrete instances of the amended claim C1: a student cancel from
PENDING_CONFIRMATION, a rejected staff transition from DELIVERED, an
accepted staff transition PREPARING to ON_THE_WAY (absent from the
table of the original claim), and an accepted vendor jump PREPARING to
READY_FOR_PICKUP. -/
theorem c1_transition_authority_witness :
    cancelOrder "u1" ⟨"u1", DbStatus.pendingConfirmation⟩ =
      (Except.ok (), ⟨"u1", DbStatus.rejected⟩) ∧
    cancelOrder "u2" ⟨"u1", DbStatus.pendingConfirmation⟩ =
      (Except.error Err.notFound, ⟨"u1", DbStatus.pendingConfirmation⟩) ∧
    updateDeliveryStatus "v1" "s1" ⟨DbStatus.delivered, "v1", "u1", none, 0, 0⟩
      "picked-up" =
      (Except.error Err.validation, ⟨DbStatus.delivered, "v1", "u1", none, 0, 0⟩) ∧
    ((updateDeliveryStatus "v1" "s1" ⟨DbStatus.preparing, "v1", "u1", none, 0, 0⟩
      "picked-up").1 = Except.ok () ∧
     (updateDeliveryStatus "v1" "s1" ⟨DbStatus.preparing, "v1", "u1", none, 0, 0⟩
      "picked-up").2.status = DbStatus.onTheWay) ∧
    vendorUpdateOrderStatus ⟨DbStatus.preparing, none⟩ "ready" =
      (Except.ok "updated", DbStatus.readyForPickup) := by
  refine ⟨?_, ?_, ?_, ?_, ?_⟩
  · exact c1_transition_authority.1 "u1" ⟨"u1", DbStatus.pendingConfirmation⟩ rfl
  · exact c1_transition_authority.2.1 "u2" ⟨"u1", DbStatus.pendingConfirmation⟩
      (by decide)
  · exact c1_transition_authority.2.2.1 "v1" "s1" _ "picked-up" DbStatus.onTheWay
      rfl (by decide) (by decide)
  · exact c1_transition_authority.2.2.2.1 "v1" "s1" _ "picked-up" DbStatus.onTheWay
      rfl (by decide) (by decide)
  · exact c1_transition_authority.2.2.2.2 ⟨DbStatus.preparing, none⟩ "ready"
      DbStatus.readyForPickup (by decide) (by decide) (by decide)

/-- Claim C5 counterexample: on a staff-assigned order in
READY_FOR_PICKUP, a vendor request targeting DELIVERED fails with the
400 validation error for an unknown UI status (DELIVERED is not
expressible in the vendor vocabulary), not with the FORBIDDEN (403)
error the claim requires; the stored status is unchanged either way. -/
theorem c5_counterexample :
    vendorUpdateOrderStatus ⟨DbStatus.readyForPickup, some "s1"⟩ "delivered" =
      (Except.error Err.validation, DbStatus.readyForPickup) ∧
    Err.validation ≠ Err.forbidden := by
  refine ⟨rfl, ?_⟩
  decide

/-- Claim C5 (amended): on a staff-assigned order, any vendor request
whose UI status maps to ON_THE_WAY, DELIVERED or COMPLETED and differs
from the current status fails FORBIDDEN with the stored status
unchanged (of these only COMPLETED is expressible, via "completed");
a request not in the vendor UI vocabulary (in particular one naming
ON_THE_WAY or DELIVERED directly) fails with a 400 validation error,
status unchanged; a request equal to the current status returns a
success no-op, status unchanged.  In particular READY_FOR_PICKUP to
COMPLETED on a staff-assigned order is rejected 403 and the status
remains READY_FOR_PICKUP. -/
theorem c5_vendor_logistics_guard :
    (∀ (o : VendorOrder) (req : String) (t : DbStatus),
      o.assignedStaffId.isSome = true →
      uiToDbStatus (pyLower (pyStrip req)) = some t →
      (t = DbStatus.onTheWay ∨ t = DbStatus.delivered ∨ t = DbStatus.completed) →
      o.status ≠ t →
      vendorUpdateOrderStatus o req = (Except.error Err.forbidden, o.status)) ∧
    (∀ (o : VendorOrder) (req : String),
      uiToDbStatus (pyLower (pyStrip req)) = none →
      vendorUpdateOrderStatus o req = (Except.error Err.validation, o.status)) ∧
    (∀ (o : VendorOrder) (req : String) (t : DbStatus),
      uiToDbStatus (pyLower (pyStrip req)) = some t → o.status = t →
      vendorUpdateOrderStatus o req = (Except.ok "unchanged", o.status)) ∧
    vendorUpdateOrderStatus ⟨DbStatus.readyForPickup, some "s1"⟩ "completed" =
      (Except.error Err.forbidden, DbStatus.readyForPickup) := by
  refine ⟨?_, ?_, ?_, rfl⟩
  · intro o req t ha h1 h2 h3
    simp [vendorUpdateOrderStatus, ha, h1, h2, h3]
  · intro o req h1
    simp [vendorUpdateOrderStatus, h1]
  · intro o req t h1 h2
    simp [vendorUpdateOrderStatus, h1, h2]

/-- Concrete instance of the amended claim C5: vendor request
"completed" on a staff-assigned order in READY_FOR_PICKUP fails
FORBIDDEN; request "on_the_way" fails validation; request "ready" on an
order already READY_FOR_PICKUP is a success no-op. -/
theorem c5_vendor_logistics_guard_witness :
    vendorUpdateOrderStatus ⟨DbStatus.readyForPickup, some "s1"⟩ "completed" =
      (Except.error Err.forbidden, DbStatus.readyForPickup) ∧
    vendorUpdateOrderStatus ⟨DbStatus.readyForPickup, some "s1"⟩ "on_the_way" =
      (Except.error Err.validation, DbStatus.readyForPickup) ∧
    vendorUpdateOrderStatus ⟨DbStatus.readyForPickup, some "s1"⟩ "ready" =
      (Except.ok "unchanged", DbStatus.readyForPickup) := by
  refine ⟨?_, ?_, ?_⟩
  · exact c5_vendor_logistics_guard.1 ⟨DbStatus.readyForPickup, some "s1"⟩
      "completed" DbStatus.completed rfl (by decide) (by decide) (by decide)
  · exact c5_vendor_logistics_guard.2.1 ⟨DbStatus.readyForPickup, some "s1"⟩
      "on_the_way" (by decide)
  · exact c5_vendor_logistics_guard.2.2.1 ⟨DbStatus.readyForPickup, some "s1"⟩
      "ready" DbStatus.readyForPickup (by decide) rfl

/-- Claim C6: when delivery staff of the order's vendor move an order
from ON_THE_WAY to DELIVERED, the student's point balance increases by
exactly the floor of total / 100 (unchanged when that floor is zero,
since the code only writes when the computed reward is positive). -/
theorem c6_delivery_points (vid sid : String) (o : StaffOrderState)
    (hv : o.restaurantId = vid) (hs : o.status = DbStatus.onTheWay)
    (ht : 0 ≤ o.total) :
    (updateDeliveryStatus vid sid o "delivered").1 = Except.ok () ∧
    (updateDeliveryStatus vid sid o "delivered").2.status = DbStatus.delivered ∧
    (updateDeliveryStatus vid sid o "delivered").2.studentPoints =
      o.studentPoints + Int.floor (o.total / 100) := by
  have hT : staffStatusTarget "delivered" = some DbStatus.delivered := by decide
  simp [updateDeliveryStatus, hT, hv, hs, validStatusTransitions]
  rcases lt_or_eq_of_le ht with hpos | hzero
  · simp [hpos]
    by_cases hrp : 0 < Int.floor (o.total / 100)
    · simp [hrp]
    · have h0 : Int.floor (o.total / 100) = 0 := by
        have hnn : (0:ℤ) ≤ Int.floor (o.total / 100) := by
          apply Int.floor_nonneg.mpr
          positivity
        omega
      simp [hrp, h0]
  · simp [← hzero]

/-- Concrete instance of claim C6: delivering an order of total 500
awards exactly 5 points (2 points become 7), and one of total 99 awards
0 points. -/
theorem c6_delivery_points_witness :
    (updateDeliveryStatus "v1" "s1"
      ⟨DbStatus.onTheWay, "v1", "u1", some "s1", 500, 2⟩ "delivered").2.studentPoints = 7 ∧
    (updateDeliveryStatus "v1" "s1"
      ⟨DbStatus.onTheWay, "v1", "u1", some "s1", 99, 2⟩ "delivered").2.studentPoints = 2 := by
  constructor
  · have h := (c6_delivery_points "v1" "s1"
      ⟨DbStatus.onTheWay, "v1", "u1", some "s1", 500, 2⟩ rfl rfl (by norm_num)).2.2
    rw [h]
    norm_num
  · have h := (c6_delivery_points "v1" "s1"
      ⟨DbStatus.onTheWay, "v1", "u1", some "s1", 99, 2⟩ rfl rfl (by norm_num)).2.2
    rw [h]
    norm_num

/-- Fixture: a pending gcash credit of a given amount, as created by
top_up, with id t1 and provider reference r1 on wallet w1 of user u1. -/
def pendingCreditTx (amt : ℚ) : Tx :=
  ⟨"t1", "w1", TxType.credit, amt, "gcash", TxStatus.pending, "u1", "r1", none⟩

/-- Fixture: the same transaction after completion. -/
def completedCreditTx (amt : ℚ) : Tx :=
  { pendingCreditTx amt with status := TxStatus.completed }

/-- Fixture: the same transaction after failure. -/
def failedCreditTx (amt : ℚ) : Tx :=
  { pendingCreditTx amt with status := TxStatus.failed }

/-- Fixture: wallet w1 of user u1 holding one transaction. -/
def walletWith (b : ℚ) (t : Tx) : WalletState := ⟨"w1", "u1", b, [t], 5⟩

/-- Claim C2: a pending credit is completed and credited exactly once.
The first confirm flips pending to completed and adds the amount; a
replayed confirm and replayed paid webhooks (maya and gcash) on the
already-completed transaction return success leaving balance and status
unchanged; a failed-status webhook cannot un-complete it.  Likewise
pending to failed happens at most once: after a failed webhook the
transaction cannot be confirmed or credited, and states stay put. -/
theorem c2_credit_exactly_once (b amt : ℚ) (hamt : 0 < amt)
    (hh : String → List Nat → String) (secret : String) (raw : List Nat)
    (sig : Option String) (hsig : verifySignature hh secret raw sig = true) :
    confirmTopUp "u1" "t1" (walletWith b (pendingCreditTx amt)) =
      (Except.ok (TxStatus.completed, b + amt),
       walletWith (b + amt) (completedCreditTx amt)) ∧
    confirmTopUp "u1" "t1" (walletWith (b + amt) (completedCreditTx amt)) =
      (Except.ok (TxStatus.completed, b + amt),
       walletWith (b + amt) (completedCreditTx amt)) ∧
    mayaWebhook hh secret raw sig ⟨some "r1", "paid", none⟩
      (walletWith (b + amt) (completedCreditTx amt)) =
      (Except.ok "completed", walletWith (b + amt) (completedCreditTx amt)) ∧
    gcashWebhook hh secret raw sig ⟨some "r1", "paid", none⟩
      (walletWith (b + amt) (completedCreditTx amt)) =
      (Except.ok "completed", walletWith (b + amt) (completedCreditTx amt)) ∧
    mayaWebhook hh secret raw sig ⟨some "r1", "failed", none⟩
      (walletWith (b + amt) (completedCreditTx amt)) =
      (Except.ok "failed", walletWith (b + amt) (completedCreditTx amt)) ∧
    mayaWebhook hh secret raw sig ⟨some "r1", "failed", none⟩
      (walletWith b (pendingCreditTx amt)) =
      (Except.ok "failed", walletWith b (failedCreditTx amt)) ∧
    confirmTopUp "u1" "t1" (walletWith b (failedCreditTx amt)) =
      (Except.error Err.validation, walletWith b (failedCreditTx amt)) ∧
    mayaWebhook hh secret raw sig ⟨some "r1", "paid", none⟩
      (walletWith b (failedCreditTx amt)) =
      (Except.ok "completed", walletWith b (failedCreditTx amt)) := by
  have hb1 : (TxStatus.completed == TxStatus.pending) = false := rfl
  have hb2 : (TxStatus.failed == TxStatus.pending) = false := rfl
  have hp : pyLower "paid" = "paid" := by decide
  have hf : pyLower "failed" = "failed" := by decide
  refine ⟨?_, ?_, ?_, ?_, ?_, ?_, ?_, ?_⟩
  · simp [confirmTopUp, completePendingCredit, walletWith, pendingCreditTx,
      completedCreditTx, List.find?, hamt.not_le]
  · simp [confirmTopUp, walletWith, pendingCreditTx, completedCreditTx,
      List.find?]
  · simp [mayaWebhook, paymentWebhook, completePendingCredit, walletWith,
      pendingCreditTx, completedCreditTx, List.find?, hsig, hb1, hp]
  · simp [gcashWebhook, paymentWebhook, completePendingCredit, walletWith,
      pendingCreditTx, completedCreditTx, List.find?, hsig, hb1, hp]
  · simp [mayaWebhook, paymentWebhook, walletWith, pendingCreditTx,
      completedCreditTx, List.find?, hsig, hf, hp]
  · simp [mayaWebhook, paymentWebhook, walletWith, pendingCreditTx,
      failedCreditTx, List.find?, hsig, hf]
  · simp [confirmTopUp, walletWith, pendingCreditTx, failedCreditTx,
      List.find?]
  · simp [mayaWebhook, paymentWebhook, completePendingCredit, walletWith,
      pendingCreditTx, failedCreditTx, List.find?, hsig, hb2, hp]

/-- Concrete instance of claim C2: balance 7, amount 100; the first
confirm yields balance 107 and a replayed confirm returns 107 again
without crediting. -/
theorem c2_credit_exactly_once_witness :
    confirmTopUp "u1" "t1" (walletWith 7 (pendingCreditTx 100)) =
      (Except.ok (TxStatus.completed, 107),
       walletWith 107 (completedCreditTx 100)) ∧
    confirmTopUp "u1" "t1" (walletWith 107 (completedCreditTx 100)) =
      (Except.ok (TxStatus.completed, 107),
       walletWith 107 (completedCreditTx 100)) := by
  have h := c2_credit_exactly_once 7 100 (by norm_num) (fun _ _ => "sg") "s" []
    (some "sg") (by decide)
  have h1 := h.1
  have h2 := h.2.1
  norm_num at h1 h2
  exact ⟨h1, h2⟩

/-- Claim C3 counterexample: a debit of 60000 against a balance of 10
exceeds the balance, but fails with the per-transaction-limit
validation error rather than the INSUFFICIENT_FUNDS error the claim
names (the 50000 ceiling is checked first); the balance is unchanged. -/
theorem c3_counterexample :
    debitWallet 60000 (some "K") none ⟨"w1", "u1", 10, [], 0⟩ =
      (Except.error Err.validation, ⟨"w1", "u1", 10, [], 0⟩) ∧
    Err.validation ≠ Err.insufficientFunds := by
  constructor
  · simp [debitWallet]
    norm_num
  · decide

/-- Claim C3 (amended): for a debit with 0 < amount ≤ 50000, an amount
exceeding the balance fails INSUFFICIENT_FUNDS with the state
unchanged, and an amount within the balance records a completed debit
transaction of that amount and leaves balance - amount; an amount above
the 50000 ceiling fails with the validation error instead (even when it
also exceeds the balance), state unchanged. -/
theorem c3_debit_rules (amount : ℚ) (idemKey orderId : Option String)
    (w : WalletState) :
    (0 < amount → amount ≤ 50000 → w.balance < amount →
      debitWallet amount idemKey orderId w = (Except.error Err.insufficientFunds, w)) ∧
    (0 < amount → amount ≤ 50000 → amount ≤ w.balance →
      debitWallet amount idemKey orderId w =
        (Except.ok ⟨freshId w.nextId, amount, TxStatus.completed, w.balance - amount⟩,
         { w with balance := w.balance - amount,
                  txs := w.txs ++ [⟨freshId w.nextId, w.walletId, TxType.debit,
                    amount, "wallet", TxStatus.completed, w.userId,
                    "DEBIT-" ++ freshId w.nextId, orderId⟩],
                  nextId := w.nextId + 1 })) ∧
    (50000 < amount →
      debitWallet amount idemKey orderId w = (Except.error Err.validation, w)) := by
  refine ⟨?_, ?_, ?_⟩
  · intro h1 h2 h3
    simp [debitWallet, h1.not_le, h2.not_lt, h3]
  · intro h1 h2 h3
    simp [debitWallet, h1.not_le, h2.not_lt, h3.not_lt]
  · intro h1
    have h0 : ¬(amount ≤ 0) := by linarith
    simp [debitWallet, h0, h1]

/-- Concrete instances of the amended claim C3: balance 100, debit 200
fails INSUFFICIENT_FUNDS leaving 100; debit 40 succeeds leaving 60 with
a completed debit transaction recorded. -/
theorem c3_debit_rules_witness :
    debitWallet 200 none none ⟨"w1", "u1", 100, [], 0⟩ =
      (Except.error Err.insufficientFunds, ⟨"w1", "u1", 100, [], 0⟩) ∧
    debitWallet 40 none none ⟨"w1", "u1", 100, [], 0⟩ =
      (Except.ok ⟨"tx-0", 40, TxStatus.completed, 60⟩,
       ⟨"w1", "u1", 60, [⟨"tx-0", "w1", TxType.debit, 40, "wallet",
         TxStatus.completed, "u1", "DEBIT-tx-0", none⟩], 1⟩) := by
  constructor
  · exact (c3_debit_rules 200 none none ⟨"w1", "u1", 100, [], 0⟩).1
      (by norm_num) (by norm_num) (by norm_num)
  · have h := (c3_debit_rules 40 none none ⟨"w1", "u1", 100, [], 0⟩).2.1
      (by norm_num) (by norm_num) (by norm_num)
    norm_num at h
    convert h using 2 <;> norm_num [freshId]

/-- Claim C4 counterexample: replaying a debit of 40 with the same
idempotency key K against a balance of 100 debits the wallet a second
time: the balance after the replay is 20, not the 60 left by the first
call, and the replay returns a fresh transaction id tx-1 distinct from
the first call's tx-0. -/
theorem c4_counterexample :
    (debitWallet 40 (some "K") none ⟨"w1", "u1", 100, [], 0⟩).1 =
      Except.ok ⟨"tx-0", 40, TxStatus.completed, 60⟩ ∧
    (debitWallet 40 (some "K") none
      (debitWallet 40 (some "K") none ⟨"w1", "u1", 100, [], 0⟩).2).1 =
      Except.ok ⟨"tx-1", 40, TxStatus.completed, 20⟩ ∧
    (debitWallet 40 (some "K") none
      (debitWallet 40 (some "K") none ⟨"w1", "u1", 100, [], 0⟩).2).2.balance = 20 ∧
    ("tx-1" : String) ≠ "tx-0" ∧ (20 : ℚ) ≠ 60 := by
  have h1 : debitWallet 40 (some "K") none ⟨"w1", "u1", 100, [], 0⟩ =
      (Except.ok ⟨"tx-0", 40, TxStatus.completed, 60⟩,
       ⟨"w1", "u1", 60, [⟨"tx-0", "w1", TxType.debit, 40, "wallet",
         TxStatus.completed, "u1", "DEBIT-tx-0", none⟩], 1⟩) := by
    simp [debitWallet, freshId]
    norm_num
    refine ⟨by decide, by decide⟩
  have h2 : debitWallet 40 (some "K") none
      ⟨"w1", "u1", 60, [⟨"tx-0", "w1", TxType.debit, 40, "wallet",
        TxStatus.completed, "u1", "DEBIT-tx-0", none⟩], 1⟩ =
      (Except.ok ⟨"tx-1", 40, TxStatus.completed, 20⟩,
       ⟨"w1", "u1", 20, [⟨"tx-0", "w1", TxType.debit, 40, "wallet",
          TxStatus.completed, "u1", "DEBIT-tx-0", none⟩,
         ⟨"tx-1", "w1", TxType.debit, 40, "wallet",
          TxStatus.completed, "u1", "DEBIT-tx-1", none⟩], 2⟩) := by
    simp [debitWallet, freshId]
    norm_num
    refine ⟨by decide, by decide⟩
  rw [h1]
  rw [show (Except.ok (⟨"tx-0", 40, TxStatus.completed, 60⟩ : TxResp),
      (⟨"w1", "u1", 60, [⟨"tx-0", "w1", TxType.debit, 40, "wallet",
        TxStatus.completed, "u1", "DEBIT-tx-0", none⟩], 1⟩ : WalletState)).2 =
      (⟨"w1", "u1", 60, [⟨"tx-0", "w1", TxType.debit, 40, "wallet",
        TxStatus.completed, "u1", "DEBIT-tx-0", none⟩], 1⟩ : WalletState) from rfl]
  rw [h2]
  refine ⟨rfl, rfl, rfl, by decide, by norm_num⟩

/-- Claim C4 (amended): replaying a top-up with the same idempotency key
is idempotent — the first call records a single pending transaction
whose id is the key and the replay returns the same transaction id and
amount with the state (including the balance) completely unchanged —
but the debit endpoint ignores the idempotency key entirely: a debit
call with any key behaves identically to one with none, so a replayed
debit applies a second debit with a fresh transaction id. -/
theorem c4_topup_idempotent_debit_not (b amt amt2 : ℚ) (uid : String)
    (h1 : 50 ≤ amt) (h2 : amt ≤ 10000) (h3 : 50 ≤ amt2) (h4 : amt2 ≤ 10000) :
    topUp amt "gcash" (some "k1") ⟨"w1", uid, b, [], 3⟩ =
      (Except.ok ⟨"k1", amt, TxStatus.pending, b⟩,
       ⟨"w1", uid, b, [⟨"k1", "w1", TxType.credit, amt, "gcash",
         TxStatus.pending, uid, "REF-" ++ freshId 3, none⟩], 4⟩) ∧
    topUp amt2 "gcash" (some "k1")
      ⟨"w1", uid, b, [⟨"k1", "w1", TxType.credit, amt, "gcash",
        TxStatus.pending, uid, "REF-" ++ freshId 3, none⟩], 4⟩ =
      (Except.ok ⟨"k1", amt, TxStatus.pending, b⟩,
       ⟨"w1", uid, b, [⟨"k1", "w1", TxType.credit, amt, "gcash",
         TxStatus.pending, uid, "REF-" ++ freshId 3, none⟩], 4⟩) ∧
    (∀ (a : ℚ) (k orderId : Option String) (w : WalletState),
      debitWallet a k orderId w = debitWallet a none orderId w) := by
  have hg : pyLower "gcash" = "gcash" := by decide
  refine ⟨?_, ?_, ?_⟩
  · simp [topUp, h1.not_lt, h2.not_lt, hg]
  · simp [topUp, h3.not_lt, h4.not_lt, List.find?, hg]
  · intro a k orderId w
    rfl

/-- Concrete instance of the amended claim C4: a top-up of 100 with key
k1 on an empty wallet of balance 9, replayed with the same key, returns
transaction k1 of amount 100 both times and leaves the state of the
first call untouched. -/
theorem c4_topup_idempotent_debit_not_witness :
    topUp 100 "gcash" (some "k1") ⟨"w1", "u1", 9, [], 3⟩ =
      (Except.ok ⟨"k1", 100, TxStatus.pending, 9⟩,
       ⟨"w1", "u1", 9, [⟨"k1", "w1", TxType.credit, 100, "gcash",
         TxStatus.pending, "u1", "REF-" ++ freshId 3, none⟩], 4⟩) ∧
    topUp 100 "gcash" (some "k1")
      ⟨"w1", "u1", 9, [⟨"k1", "w1", TxType.credit, 100, "gcash",
        TxStatus.pending, "u1", "REF-" ++ freshId 3, none⟩], 4⟩ =
      (Except.ok ⟨"k1", 100, TxStatus.pending, 9⟩,
       ⟨"w1", "u1", 9, [⟨"k1", "w1", TxType.credit, 100, "gcash",
         TxStatus.pending, "u1", "REF-" ++ freshId 3, none⟩], 4⟩) := by
  have h := c4_topup_idempotent_debit_not 9 100 100 "u1"
    (by norm_num) (by norm_num) (by norm_num) (by norm_num)
  exact ⟨h.1, h.2.1⟩

/-- Claim C9: both payment webhooks verify the HMAC signature over the
raw body before anything else: whenever verification fails the handler
returns the 401 unauthorized error and the wallet state — every
transaction status and the balance — is exactly the input state.
Verification always fails when the configured secret is empty or no
signature header is provided. -/
theorem c9_webhook_signature_gate :
    (∀ (hh : String → List Nat → String) (secret : String) (raw : List Nat)
      (sig : Option String) (p : WebhookPayload) (w : WalletState),
      verifySignature hh secret raw sig = false →
      mayaWebhook hh secret raw sig p w = (Except.error Err.unauthorized, w) ∧
      gcashWebhook hh secret raw sig p w = (Except.error Err.unauthorized, w)) ∧
    (∀ (hh : String → List Nat → String) (raw : List Nat) (sig : Option String),
      verifySignature hh "" raw sig = false) ∧
    (∀ (hh : String → List Nat → String) (secret : String) (raw : List Nat),
      verifySignature hh secret raw none = false) := by
  refine ⟨?_, ?_, ?_⟩
  · intro hh secret raw sig p w h
    exact ⟨by simp [mayaWebhook, paymentWebhook, h],
           by simp [gcashWebhook, paymentWebhook, h]⟩
  · intro hh raw sig
    simp [verifySignature]
  · intro hh secret raw
    unfold verifySignature
    split <;> rfl

/-- Concrete instance of claim C9: with secret s and a mismatched
signature value bad over body [1, 2], both webhooks reject with 401 and
return the input state unchanged. -/
theorem c9_webhook_signature_gate_witness :
    mayaWebhook (fun _ _ => "aa") "s" [1, 2] (some "bad")
      ⟨some "r1", "paid", none⟩ (walletWith 7 (pendingCreditTx 100)) =
      (Except.error Err.unauthorized, walletWith 7 (pendingCreditTx 100)) ∧
    gcashWebhook (fun _ _ => "aa") "s" [1, 2] (some "bad")
      ⟨some "r1", "paid", none⟩ (walletWith 7 (pendingCreditTx 100)) =
      (Except.error Err.unauthorized, walletWith 7 (pendingCreditTx 100)) := by
  exact c9_webhook_signature_gate.1 (fun _ _ => "aa") "s" [1, 2] (some "bad")
    ⟨some "r1", "paid", none⟩ (walletWith 7 (pendingCreditTx 100)) (by decide)

/-- Claim C7: the LATE refund schedule.  Delay of at least 60 minutes
yields a full auto-approved refund of the order total; 30 to 59 minutes
yields an auto-approved partial refund of 30 percent of the total
(stated for totals whose 30 percent is an exact number of hundredths,
where the code's rounding to two decimals is the identity); 15 to 29
minutes yields the amount-zero voucher outcome, not auto-approved;
below 15 minutes nothing is approved.  In particular delay 40 on a
total of 500 yields 150. -/
theorem c7_late_refund_schedule (d : ℤ) (T : ℚ) :
    (60 ≤ d → computeRefund "LATE" d [] [] [] T DbStatus.preparing "" =
      ⟨T, RefundKind.fullRefund, true⟩) ∧
    (30 ≤ d → d ≤ 59 → (∃ n : ℤ, T * 30 = (n : ℚ)) →
      computeRefund "LATE" d [] [] [] T DbStatus.preparing "" =
      ⟨T * (3 / 10), RefundKind.partialRefund, true⟩) ∧
    (15 ≤ d → d ≤ 29 → computeRefund "LATE" d [] [] [] T DbStatus.preparing "" =
      ⟨0, RefundKind.voucherRefund, false⟩) ∧
    (d < 15 → computeRefund "LATE" d [] [] [] T DbStatus.preparing "" =
      ⟨0, RefundKind.partialRefund, false⟩) ∧
    computeRefund "LATE" 40 [] [] [] 500 DbStatus.preparing "" =
      ⟨150, RefundKind.partialRefund, true⟩ := by
  have hU : pyUpper "LATE" = "LATE" := by decide
  refine ⟨?_, ?_, ?_, ?_, ?_⟩
  · intro h60
    simp [computeRefund, hU, h60]
  · intro h30 h59 hcent
    have hiff : round2 (T * (3 / 10)) = T * (3 / 10) := by
      obtain ⟨n, hn⟩ := hcent
      exact round2_eq_of_cent _ ⟨n, by rw [← hn]; ring⟩
    simp [computeRefund, hU, show ¬(60 ≤ d) by omega, h30, hiff]
  · intro h15 h29
    simp [computeRefund, hU, show ¬(60 ≤ d) by omega,
      show ¬(30 ≤ d) by omega, h15]
  · intro h14
    simp [computeRefund, hU, show ¬(60 ≤ d) by omega,
      show ¬(30 ≤ d) by omega, show ¬(15 ≤ d) by omega]
  · have h150 : round2 ((500 : ℚ) * (3 / 10)) = 150 := by
      rw [show ((500 : ℚ) * (3 / 10)) = 150 by norm_num]
      exact round2_eq_of_cent 150 ⟨15000, by norm_num⟩
    simp [computeRefund, hU]
    norm_num [h150]
    exact round2_eq_of_cent 150 ⟨15000, by norm_num⟩

/-- Concrete instances of claim C7: delays 70, 40, 20 and 10 on a total
of 500 yield 500 (full), 150 (partial), 0 (voucher) and 0 (nothing). -/
theorem c7_late_refund_schedule_witness :
    computeRefund "LATE" 70 [] [] [] 500 DbStatus.preparing "" =
      ⟨500, RefundKind.fullRefund, true⟩ ∧
    computeRefund "LATE" 40 [] [] [] 500 DbStatus.preparing "" =
      ⟨150, RefundKind.partialRefund, true⟩ ∧
    computeRefund "LATE" 20 [] [] [] 500 DbStatus.preparing "" =
      ⟨0, RefundKind.voucherRefund, false⟩ ∧
    computeRefund "LATE" 10 [] [] [] 500 DbStatus.preparing "" =
      ⟨0, RefundKind.partialRefund, false⟩ := by
  refine ⟨?_, ?_, ?_, ?_⟩
  · exact (c7_late_refund_schedule 70 500).1 (by norm_num)
  · have h := (c7_late_refund_schedule 40 500).2.1 (by norm_num) (by norm_num)
      ⟨15000, by norm_num⟩
    rw [h]
    norm_num
  · exact (c7_late_refund_schedule 20 500).2.2.1 (by norm_num) (by norm_num)
  · exact (c7_late_refund_schedule 10 500).2.2.2.1 (by norm_num)

/-- Claim C8 counterexample: a refund request on an order paid with
cash is rejected with a 400 validation error and nothing is persisted:
the refunds table of the resulting state is exactly the input one
(empty), contradicting the claim that non-wallet orders are still
recorded rather than rejected. -/
theorem c8_counterexample :
    requestRefund "u1" ⟨"o1", "u1", "v1", [], 500, DbStatus.preparing, "cash"⟩
      "w1" "LATE" 40 [] [] "" ⟨0, [], [], 0⟩ =
      (Except.error Err.validation, ⟨0, [], [], 0⟩) ∧
    (requestRefund "u1" ⟨"o1", "u1", "v1", [], 500, DbStatus.preparing, "cash"⟩
      "w1" "LATE" 40 [] [] "" ⟨0, [], [], 0⟩).2.refunds = [] := by
  constructor <;> rfl

/-- Claim C8 (amended): only wallet-paid orders are refundable at all —
a request on an order of any other payment method fails 400 with no
state change and no Refund record.  For wallet-paid orders the claim
holds: a Refund row is always persisted (status APPROVED exactly when
the computed outcome auto-approves a positive amount, else PENDING),
and the wallet balance is credited exactly when the outcome
auto-approves a positive amount. -/
theorem c8_refund_record_rules (uid : String) (o : OrderRec)
    (walletId issueRaw : String) (d : ℤ) (ev ic : List String)
    (ini : String) (st : RefundReqState) :
    (o.userId = uid → pyLower o.paymentMethod ≠ "wallet" →
      requestRefund uid o walletId issueRaw d ev ic ini st =
        (Except.error Err.validation, st)) ∧
    (o.userId = uid → pyLower o.paymentMethod = "wallet" →
      ((requestRefund uid o walletId issueRaw d ev ic ini st).2.refunds =
        st.refunds ++ [⟨o.id, pyUpper issueRaw,
          (computeRefund issueRaw d ev ic o.items o.total o.status ini).approvedAmount,
          (computeRefund issueRaw d ev ic o.items o.total o.status ini).refundKind,
          if (computeRefund issueRaw d ev ic o.items o.total o.status ini).autoApprove ∧
             0 < (computeRefund issueRaw d ev ic o.items o.total o.status ini).approvedAmount
          then "APPROVED" else "PENDING"⟩]) ∧
      (((computeRefund issueRaw d ev ic o.items o.total o.status ini).autoApprove ∧
        0 < (computeRefund issueRaw d ev ic o.items o.total o.status ini).approvedAmount) →
        (requestRefund uid o walletId issueRaw d ev ic ini st).2.walletBalance =
          st.walletBalance +
          (computeRefund issueRaw d ev ic o.items o.total o.status ini).approvedAmount) ∧
      (¬((computeRefund issueRaw d ev ic o.items o.total o.status ini).autoApprove ∧
        0 < (computeRefund issueRaw d ev ic o.items o.total o.status ini).approvedAmount) →
        (requestRefund uid o walletId issueRaw d ev ic ini st).2.walletBalance =
          st.walletBalance)) := by
  constructor
  · intro h1 h2
    simp [requestRefund, h1, h2]
  · intro h1 h2
    by_cases hc : (computeRefund issueRaw d ev ic o.items o.total o.status ini).autoApprove ∧
        0 < (computeRefund issueRaw d ev ic o.items o.total o.status ini).approvedAmount
    · refine ⟨?_, fun _ => ?_, fun hn => absurd hc hn⟩ <;>
        simp [requestRefund, h1, h2, hc]
    · refine ⟨?_, fun hy => absurd hy hc, fun _ => ?_⟩ <;>
        simp [requestRefund, h1, h2, hc]

/-- Concrete instances of the amended claim C8: a LATE-40 refund on a
wallet-paid order of total 500 credits 150 and records an APPROVED
refund row; a LATE-20 request credits nothing and still records a
PENDING voucher row; a cash-paid order is rejected with no record. -/
theorem c8_refund_record_rules_witness :
    (requestRefund "u1" ⟨"o1", "u1", "v1", [], 500, DbStatus.preparing, "WALLET"⟩
      "w1" "LATE" 40 [] [] "" ⟨0, [], [], 0⟩).2.refunds =
      [⟨"o1", "LATE", 150, RefundKind.partialRefund, "APPROVED"⟩] ∧
    (requestRefund "u1" ⟨"o1", "u1", "v1", [], 500, DbStatus.preparing, "WALLET"⟩
      "w1" "LATE" 40 [] [] "" ⟨0, [], [], 0⟩).2.walletBalance = 150 ∧
    (requestRefund "u1" ⟨"o1", "u1", "v1", [], 500, DbStatus.preparing, "WALLET"⟩
      "w1" "LATE" 20 [] [] "" ⟨0, [], [], 0⟩).2.refunds =
      [⟨"o1", "LATE", 0, RefundKind.voucherRefund, "PENDING"⟩] ∧
    (requestRefund "u1" ⟨"o1", "u1", "v1", [], 500, DbStatus.preparing, "WALLET"⟩
      "w1" "LATE" 20 [] [] "" ⟨0, [], [], 0⟩).2.walletBalance = 0 ∧
    requestRefund "u1" ⟨"o1", "u1", "v1", [], 500, DbStatus.preparing, "cash"⟩
      "w1" "LATE" 40 [] [] "" ⟨0, [], [], 0⟩ =
      (Except.error Err.validation, ⟨0, [], [], 0⟩) := by
  have hout40 : computeRefund "LATE" 40 [] [] [] 500 DbStatus.preparing "" =
      ⟨150, RefundKind.partialRefund, true⟩ := by
    have hU : pyUpper "LATE" = "LATE" := by decide
    have h150 : round2 ((500 : ℚ) * (3 / 10)) = 150 := by
      rw [show ((500 : ℚ) * (3 / 10)) = 150 by norm_num]
      exact round2_eq_of_cent 150 ⟨15000, by norm_num⟩
    simp [computeRefund, hU]
    norm_num [h150]
    exact round2_eq_of_cent 150 ⟨15000, by norm_num⟩
  have hout20 : computeRefund "LATE" 20 [] [] [] 500 DbStatus.preparing "" =
      ⟨0, RefundKind.voucherRefund, false⟩ := by
    have hU : pyUpper "LATE" = "LATE" := by decide
    simp [computeRefund, hU]
  have hw : pyLower "WALLET" = "wallet" := by decide
  have hU2 : pyUpper "LATE" = "LATE" := by decide
  have h40 := (c8_refund_record_rules "u1"
    ⟨"o1", "u1", "v1", [], 500, DbStatus.preparing, "WALLET"⟩
    "w1" "LATE" 40 [] [] "" ⟨0, [], [], 0⟩).2 rfl hw
  have h20 := (c8_refund_record_rules "u1"
    ⟨"o1", "u1", "v1", [], 500, DbStatus.preparing, "WALLET"⟩
    "w1" "LATE" 20 [] [] "" ⟨0, [], [], 0⟩).2 rfl hw
  have hcash := (c8_refund_record_rules "u1"
    ⟨"o1", "u1", "v1", [], 500, DbStatus.preparing, "cash"⟩
    "w1" "LATE" 40 [] [] "" ⟨0, [], [], 0⟩).1 rfl (by decide)
  refine ⟨?_, ?_, ?_, ?_, hcash⟩
  · have := h40.1
    rw [hout40] at this
    simpa [hU2] using this
  · have := h40.2.1 (by rw [hout40]; norm_num)
    rw [hout40] at this
    norm_num at this
    exact this
  · have := h20.1
    rw [hout20] at this
    simpa [hU2] using this
  · have := h20.2.2 (by rw [hout20]; norm_num)
    norm_num at this
    exact this

/-- Claim C10 counterexample: an order holding an item with an empty
name (price 100) and an item named burger (price 50), total 150.  A
WRONG_ITEMS request with an empty claimed-items list computes 50 — the
sum over items with a non-empty name only — not the 150 sum over all
items that the claim asserts; the request is still auto-approved. -/
theorem c10_counterexample :
    computeRefund "WRONG_ITEMS" 0 [] [] [⟨"", 100, 1⟩, ⟨"burger", 50, 1⟩]
      150 DbStatus.delivered "" = ⟨50, RefundKind.partialRefund, true⟩ ∧
    ((100 : ℚ) * 1 + 50 * 1 = 150) ∧ (50 : ℚ) ≠ 150 := by
  have hU : pyUpper "WRONG_ITEMS" = "WRONG_ITEMS" := by decide
  have he : pyLower (pyStrip "") = "" := by decide
  have hb : pyLower (pyStrip "burger") = "burger" := by decide
  refine ⟨?_, by norm_num, by norm_num⟩
  have hsum : claimedItemsSum []
      [⟨"", 100, 1⟩, ⟨"burger", 50, 1⟩] = 50 := by
    simp [claimedItemsSum, he, hb]
  have h50 : round2 (50 : ℚ) = 50 :=
    round2_eq_of_cent 50 ⟨5000, by norm_num⟩
  simp [computeRefund, hU, hsum]
  norm_num
  exact h50

/-- Claim C10 (amended): for WRONG_ITEMS or MISSING_ITEMS with an empty
claimed-items list, the computed outcome is the two-decimal rounding of
the sum of price times quantity over the items with a NON-EMPTY
(trimmed) name, capped at the order total, auto-approved exactly when
positive; when every item name is non-empty this sum is the sum over
all items, as the original claim stated. -/
theorem c10_empty_claim_items (d : ℤ) (ev : List String)
    (items : List OrderItem) (T : ℚ) (st : DbStatus) (ini : String) :
    (computeRefund "WRONG_ITEMS" d ev [] items T st ini =
      if 0 < min (claimedItemsSum [] items) T then
        ⟨round2 (min (claimedItemsSum [] items) T), RefundKind.partialRefund, true⟩
      else ⟨0, RefundKind.partialRefund, false⟩) ∧
    (computeRefund "MISSING_ITEMS" d ev [] items T st ini =
      if 0 < min (claimedItemsSum [] items) T then
        ⟨round2 (min (claimedItemsSum [] items) T), RefundKind.partialRefund, true⟩
      else ⟨0, RefundKind.partialRefund, false⟩) ∧
    (∀ its : List OrderItem, (∀ it ∈ its, pyLower (pyStrip it.name) ≠ "") →
      claimedItemsSum [] its =
        (its.map (fun it => it.price * (it.quantity : ℚ))).sum) := by
  have hU1 : pyUpper "WRONG_ITEMS" = "WRONG_ITEMS" := by decide
  have hU2 : pyUpper "MISSING_ITEMS" = "MISSING_ITEMS" := by decide
  refine ⟨?_, ?_, fun its h => claimedItemsSum_eq_sum its h⟩
  · simp [computeRefund, hU1]
  · simp [computeRefund, hU2]

/-- Concrete instance of the amended claim C10: a single item burger of
price 100, quantity 2, total 500, empty claimed list: the computed
refund is 200 — the whole order — and auto-approved. -/
theorem c10_empty_claim_items_witness :
    computeRefund "WRONG_ITEMS" 0 [] [] [⟨"burger", 100, 2⟩]
      500 DbStatus.delivered "" = ⟨200, RefundKind.partialRefund, true⟩ ∧
    claimedItemsSum [] [⟨"burger", 100, 2⟩] =
      ((([⟨"burger", 100, 2⟩] : List OrderItem).map
        (fun it => it.price * (it.quantity : ℚ))).sum) := by
  have h1 := (c10_empty_claim_items 0 [] [⟨"burger", 100, 2⟩]
    500 DbStatus.delivered "").1
  have h3 := (c10_empty_claim_items 0 [] [⟨"burger", 100, 2⟩]
    500 DbStatus.delivered "").2.2 [⟨"burger", 100, 2⟩] (by decide)
  have hb : pyLower (pyStrip "burger") = "burger" := by decide
  have hsum : claimedItemsSum [] [(⟨"burger", 100, 2⟩ : OrderItem)] = 200 := by
    simp [claimedItemsSum, hb]
    norm_num
  constructor
  · rw [h1, hsum]
    rw [show min (200 : ℚ) 500 = 200 by norm_num]
    rw [if_pos (by norm_num)]
    rw [round2_eq_of_cent 200 ⟨20000, by norm_num⟩]
  · exact h3
